import Mathlib

/-!
Shallow embedding of the rolling-window statistical anomaly detector in
`apps/data-processing/src/anomaly_detector.py` (class `AnomalyDetector` and its
helpers), together with theorems settling the specification claims.

Modelling conventions:
* Python floats (volumes, sentiment scores, thresholds, timestamps) are
  modelled as exact rationals `ℚ`; timestamps are measured in hours, so that
  `timedelta(hours=w)` is simply the rational `w`.
* `np.std(xs, ddof=1)` takes a real square root, so standard deviations and
  the quantities derived from them (z-scores, severity scores) live in `ℝ`.
* A `collections.deque` with `maxlen = m` is a `List` on which `append` keeps
  only the last `m` elements; `popleft` is `List.tail`.
* `_calculate_statistics` raises `ValueError` on short input; this fallible
  call is modelled with `Option`, `none` standing for the raised exception,
  and the `try/except` in the public detection methods is the `none` branch.
-/

namespace Lumenpulse

/-- `DEFAULT_WINDOW_SIZE_HOURS = 24` from the class body. -/
def DEFAULT_WINDOW_SIZE_HOURS : ℤ := 24

/-- `DEFAULT_Z_THRESHOLD = 2.5` from the class body. -/
def DEFAULT_Z_THRESHOLD : ℚ := 2.5

/-- `MIN_DATA_POINTS = 10` from the class body. -/
def MIN_DATA_POINTS : ℕ := 10

/-- Result record produced by the detection methods (`AnomalyResult` dataclass). -/
structure AnomalyResult where
  is_anomaly : Bool
  severity_score : ℝ
  metric_name : String
  current_value : ℚ
  baseline_mean : ℚ
  baseline_std : ℝ
  z_score : ℝ
  timestamp : ℚ

/-- State of an `AnomalyDetector` instance: the configuration fixed at
construction and the three parallel deques of the rolling window. -/
structure AnomalyDetector where
  window_size_hours : ℤ
  z_threshold : ℚ
  timestamp_data : List ℚ
  volume_data : List ℚ
  sentiment_data : List ℚ

/-- The shared `maxlen` of the three deques:
`deque(maxlen=self.window_size_hours * 4)` (15-minute sampling assumption). -/
def AnomalyDetector.maxlen (d : AnomalyDetector) : ℕ :=
  (d.window_size_hours * 4).toNat

/-- The attribute computation of `__init__` and the state of a successfully
constructed detector: `None` arguments model omitted parameters; the source
uses falsy-`or` defaulting (`window_size_hours or DEFAULT`,
`z_threshold or DEFAULT`), so an explicit `0` also falls back to the default.
Constructing the three deques can fail for a negative window size; the full
constructor including that step is `tryInit` below. -/
def AnomalyDetector.init (window_size_hours : Option ℤ) (z_threshold : Option ℚ) :
    AnomalyDetector :=
  let w := match window_size_hours with
    | none => DEFAULT_WINDOW_SIZE_HOURS
    | some w => if w = 0 then DEFAULT_WINDOW_SIZE_HOURS else w
  let t := match z_threshold with
    | none => DEFAULT_Z_THRESHOLD
    | some t => if t = 0 then DEFAULT_Z_THRESHOLD else t
  { window_size_hours := w
    z_threshold := t
    timestamp_data := []
    volume_data := []
    sentiment_data := [] }

/-- The full `__init__`, including creation of the three
`deque(maxlen=self.window_size_hours * 4)` buffers: for a negative effective
window size (which is truthy in Python and so survives the falsy-`or`) the
deque constructor raises `ValueError: maxlen must be non-negative`, modelled
by `none`; otherwise construction succeeds with the `init` state. -/
def AnomalyDetector.tryInit (window_size_hours : Option ℤ) (z_threshold : Option ℚ) :
    Option AnomalyDetector :=
  let d := AnomalyDetector.init window_size_hours z_threshold
  if d.window_size_hours * 4 < 0 then none else some d

/-- Appending to a `deque(maxlen=m)`: push at the tail, silently dropping
elements from the head so that at most `m` remain. -/
def dequeAppend (m : ℕ) (l : List α) (a : α) : List α :=
  (l ++ [a]).drop ((l ++ [a]).length - m)

/-- The `while` loop of `_clean_old_data`: while the head timestamp is strictly
older than the cutoff, pop the head of the timestamp deque and (when non-empty)
of the two value deques. -/
def cleanLoop (cutoff : ℚ) : List ℚ → List ℚ → List ℚ → List ℚ × List ℚ × List ℚ
  | [], vs, ss => ([], vs, ss)
  | t :: ts, vs, ss =>
    if t < cutoff then cleanLoop cutoff ts vs.tail ss.tail
    else (t :: ts, vs, ss)

/-- `_clean_old_data(current_timestamp)`:
`cutoff_time = current_timestamp - timedelta(hours=window_size_hours)`. -/
def AnomalyDetector.clean_old_data (d : AnomalyDetector) (current_timestamp : ℚ) :
    AnomalyDetector :=
  let cutoff := current_timestamp - (d.window_size_hours : ℚ)
  let r := cleanLoop cutoff d.timestamp_data d.volume_data d.sentiment_data
  { d with timestamp_data := r.1, volume_data := r.2.1, sentiment_data := r.2.2 }

/-- `add_data_point(volume, sentiment_score, timestamp)`: clean old data first,
then append to the three deques. -/
def AnomalyDetector.add_data_point (d : AnomalyDetector)
    (volume sentiment_score timestamp : ℚ) : AnomalyDetector :=
  let d1 := d.clean_old_data timestamp
  { d1 with
    timestamp_data := dequeAppend d1.maxlen d1.timestamp_data timestamp
    volume_data := dequeAppend d1.maxlen d1.volume_data volume
    sentiment_data := dequeAppend d1.maxlen d1.sentiment_data sentiment_score }

/-- `reset()`: clear all three deques, keep configuration. -/
def AnomalyDetector.reset (d : AnomalyDetector) : AnomalyDetector :=
  { d with timestamp_data := [], volume_data := [], sentiment_data := [] }

/-- `np.mean(data_points)`. -/
def listMean (l : List ℚ) : ℚ := l.sum / l.length

/-- The square of `np.std(data_points, ddof=1)`: sample variance with
Bessel's correction (divisor `n - 1`). -/
def sampleVariance (l : List ℚ) : ℚ :=
  (l.map (fun x => (x - listMean l) ^ 2)).sum / ((l.length : ℚ) - 1)

/-- `np.std(data_points, ddof=1)`: sample standard deviation. -/
noncomputable def sampleStd (l : List ℚ) : ℝ := Real.sqrt (sampleVariance l)

/-- `_calculate_statistics(data_points)`: raises (`none`) when fewer than
`MIN_DATA_POINTS` values are given; otherwise returns the mean and the sample
standard deviation, substituting `1e-10` when the latter is exactly zero. -/
noncomputable def calculate_statistics (l : List ℚ) : Option (ℚ × ℝ) :=
  if l.length < MIN_DATA_POINTS then none
  else
    let mean := listMean l
    let std := sampleStd l
    some (mean, if std = 0 then (1e-10 : ℝ) else std)

/-- `_calculate_z_score(value, mean, std) = (value - mean) / std`. -/
noncomputable def calculate_z_score (value mean : ℚ) (std : ℝ) : ℝ :=
  ((value : ℝ) - (mean : ℝ)) / std

/-- `_calculate_severity_score(z_score)`: piecewise linear map of `|z|`
relative to the threshold, capped at `1.0`. -/
noncomputable def calculate_severity_score (z_threshold : ℚ) (z_score : ℝ) : ℝ :=
  let abs_z := |z_score|
  if abs_z ≤ (z_threshold : ℝ) then 0
  else if abs_z ≤ (z_threshold : ℝ) * 2 then
    (abs_z - (z_threshold : ℝ)) / (z_threshold : ℝ)
  else 1

/-- The zeroed "safe" result returned both on the insufficient-data path and
from the `except` handler of the detection methods. -/
def safeResult (metric_name : String) (current_value timestamp : ℚ) : AnomalyResult :=
  { is_anomaly := false
    severity_score := 0
    metric_name := metric_name
    current_value := current_value
    baseline_mean := 0
    baseline_std := 0
    z_score := 0
    timestamp := timestamp }

/-- `detect_volume_anomaly(current_volume, timestamp)`. The `none` branch of
`calculate_statistics` models the `except` handler. -/
noncomputable def AnomalyDetector.detect_volume_anomaly (d : AnomalyDetector)
    (current_volume timestamp : ℚ) : AnomalyResult :=
  let baseline_values := d.volume_data
  if baseline_values.length < MIN_DATA_POINTS then
    safeResult "volume" current_volume timestamp
  else
    match calculate_statistics baseline_values with
    | none => safeResult "volume" current_volume timestamp
    | some (mean, std) =>
      let z_score := calculate_z_score current_volume mean std
      let severity := calculate_severity_score d.z_threshold z_score
      { is_anomaly := decide (|z_score| > (d.z_threshold : ℝ))
        severity_score := severity
        metric_name := "volume"
        current_value := current_volume
        baseline_mean := mean
        baseline_std := std
        z_score := z_score
        timestamp := timestamp }

/-- `detect_sentiment_anomaly(current_sentiment, timestamp)`. -/
noncomputable def AnomalyDetector.detect_sentiment_anomaly (d : AnomalyDetector)
    (current_sentiment timestamp : ℚ) : AnomalyResult :=
  let baseline_values := d.sentiment_data
  if baseline_values.length < MIN_DATA_POINTS then
    safeResult "sentiment" current_sentiment timestamp
  else
    match calculate_statistics baseline_values with
    | none => safeResult "sentiment" current_sentiment timestamp
    | some (mean, std) =>
      let z_score := calculate_z_score current_sentiment mean std
      let severity := calculate_severity_score d.z_threshold z_score
      { is_anomaly := decide (|z_score| > (d.z_threshold : ℝ))
        severity_score := severity
        metric_name := "sentiment"
        current_value := current_sentiment
        baseline_mean := mean
        baseline_std := std
        z_score := z_score
        timestamp := timestamp }

/-- `detect_anomalies(volume, sentiment_score, timestamp)`: add the data point
first, then evaluate both metrics against the post-insertion window; returns
the new state together with `[volume_result, sentiment_result]`. -/
noncomputable def AnomalyDetector.detect_anomalies (d : AnomalyDetector)
    (volume sentiment_score timestamp : ℚ) :
    AnomalyDetector × List AnomalyResult :=
  let d1 := d.add_data_point volume sentiment_score timestamp
  (d1, [d1.detect_volume_anomaly volume timestamp,
        d1.detect_sentiment_anomaly sentiment_score timestamp])

/-- A call against a detector instance, for reasoning about arbitrary call
sequences.  `detect_volume` / `detect_sentiment` are included because they are
public entry points, though they do not mutate the window. -/
inductive Op where
  | add_data_point (volume sentiment_score timestamp : ℚ)
  | detect_anomalies (volume sentiment_score timestamp : ℚ)
  | detect_volume (current_volume timestamp : ℚ)
  | detect_sentiment (current_sentiment timestamp : ℚ)
  | reset

/-- State effect of one call.  `detect_anomalies` mutates exactly through
`add_data_point` (see `detect_anomalies_fst`); the single-metric detection
methods and `get_window_stats` read but never write. -/
def applyOp (d : AnomalyDetector) : Op → AnomalyDetector
  | .add_data_point v s ts => d.add_data_point v s ts
  | .detect_anomalies v s ts => d.add_data_point v s ts
  | .detect_volume _ _ => d
  | .detect_sentiment _ _ => d
  | .reset => d.reset

/-- Run a sequence of calls from a given state. -/
def runOps (d : AnomalyDetector) (ops : List Op) : AnomalyDetector :=
  ops.foldl applyOp d

/-- The state component of `detect_anomalies` is exactly `add_data_point`. -/
theorem detect_anomalies_fst (d : AnomalyDetector) (v s ts : ℚ) :
    (d.detect_anomalies v s ts).1 = d.add_data_point v s ts := rfl

theorem dequeAppend_length (m : ℕ) (l : List α) (a : α) :
    (dequeAppend m l a).length = min (l.length + 1) m := by
  simp only [dequeAppend, List.length_drop, List.length_append, List.length_singleton]
  omega

theorem dequeAppend_length_le (m : ℕ) (l : List α) (a : α) :
    (dequeAppend m l a).length ≤ m := by
  rw [dequeAppend_length]; omega

theorem dequeAppend_of_le (m : ℕ) (l : List α) (a : α) (h : l.length + 1 ≤ m) :
    dequeAppend m l a = l ++ [a] := by
  unfold dequeAppend
  rw [show (l ++ [a]).length - m = 0 by simp; omega, List.drop_zero]

theorem mem_dequeAppend {m : ℕ} {l : List α} {a x : α} (h : x ∈ dequeAppend m l a) :
    x ∈ l ∨ x = a := by
  have hx := List.mem_of_mem_drop h
  simpa using hx

theorem self_mem_dequeAppend (m : ℕ) (l : List α) (a : α) (hm : 1 ≤ m) :
    a ∈ dequeAppend m l a := by
  unfold dequeAppend
  rw [List.drop_append_of_le_length (by simp; omega)]
  simp

theorem cleanLoop_lengths (cutoff : ℚ) :
    ∀ ts vs ss : List ℚ, vs.length = ts.length → ss.length = ts.length →
      (cleanLoop cutoff ts vs ss).2.1.length = (cleanLoop cutoff ts vs ss).1.length ∧
      (cleanLoop cutoff ts vs ss).2.2.length = (cleanLoop cutoff ts vs ss).1.length := by
  intro ts
  induction ts with
  | nil =>
    intro vs ss hv hs
    simp only [cleanLoop, List.length_nil] at hv hs ⊢
    exact ⟨hv, hs⟩
  | cons t ts ih =>
    intro vs ss hv hs
    by_cases h : t < cutoff
    · have := ih vs.tail ss.tail (by simp [List.length_tail, hv]) (by simp [List.length_tail, hs])
      simpa [cleanLoop, h] using this
    · simpa [cleanLoop, h] using ⟨hv, hs⟩

theorem cleanLoop_fst_length_le (cutoff : ℚ) :
    ∀ ts vs ss : List ℚ, (cleanLoop cutoff ts vs ss).1.length ≤ ts.length := by
  intro ts
  induction ts with
  | nil => intro vs ss; simp [cleanLoop]
  | cons t ts ih =>
    intro vs ss
    by_cases h : t < cutoff
    · calc (cleanLoop cutoff (t :: ts) vs ss).1.length
          = (cleanLoop cutoff ts vs.tail ss.tail).1.length := by simp [cleanLoop, h]
        _ ≤ ts.length := ih _ _
        _ ≤ (t :: ts).length := by simp
    · simp [cleanLoop, h]

theorem cleanLoop_of_ge (cutoff : ℚ) (ts vs ss : List ℚ)
    (h : ∀ x ∈ ts, cutoff ≤ x) : cleanLoop cutoff ts vs ss = (ts, vs, ss) := by
  cases ts with
  | nil => simp [cleanLoop]
  | cons t ts =>
    have ht : ¬ t < cutoff := not_lt.mpr (h t (by simp))
    simp [cleanLoop, ht]

theorem cleanLoop_sorted_ge (cutoff : ℚ) :
    ∀ ts vs ss : List ℚ, ts.Sorted (· ≤ ·) →
      ∀ x ∈ (cleanLoop cutoff ts vs ss).1, cutoff ≤ x := by
  intro ts
  induction ts with
  | nil => intro vs ss _ x hx; simp [cleanLoop] at hx
  | cons t ts ih =>
    intro vs ss hsort x hx
    rw [List.sorted_cons] at hsort
    by_cases h : t < cutoff
    · exact ih vs.tail ss.tail hsort.2 x (by simpa [cleanLoop, h] using hx)
    · simp only [cleanLoop, if_neg h] at hx
      rcases List.mem_cons.mp hx with rfl | hx
      · exact not_lt.mp h
      · exact le_trans (not_lt.mp h) (hsort.1 x hx)

theorem applyOp_window (d : AnomalyDetector) (op : Op) :
    (applyOp d op).window_size_hours = d.window_size_hours ∧
    (applyOp d op).z_threshold = d.z_threshold := by
  cases op <;>
    simp [applyOp, AnomalyDetector.add_data_point, AnomalyDetector.clean_old_data,
      AnomalyDetector.reset]

theorem runOps_window (d : AnomalyDetector) (ops : List Op) :
    (runOps d ops).window_size_hours = d.window_size_hours ∧
    (runOps d ops).z_threshold = d.z_threshold := by
  induction ops generalizing d with
  | nil => simp [runOps]
  | cons op ops ih =>
    have h1 := applyOp_window d op
    have h2 := ih (applyOp d op)
    simp only [runOps, List.foldl_cons] at h2 ⊢
    exact ⟨h2.1.trans h1.1, h2.2.trans h1.2⟩

theorem runOps_inv (P : AnomalyDetector → Prop)
    (h : ∀ d op, P d → P (applyOp d op)) :
    ∀ ops d, P d → P (runOps d ops) := by
  intro ops
  induction ops with
  | nil => intro d hd; simpa [runOps] using hd
  | cons op ops ih =>
    intro d hd
    simpa [runOps] using ih (applyOp d op) (h d op hd)

theorem listMean_replicate (n : ℕ) (c : ℚ) (hn : 0 < n) :
    listMean (List.replicate n c) = c := by
  have hne : (n : ℚ) ≠ 0 := Nat.cast_ne_zero.mpr (by omega)
  simp [listMean, List.sum_replicate, nsmul_eq_mul]
  field_simp

theorem sampleVariance_replicate (n : ℕ) (c : ℚ) (hn : 0 < n) :
    sampleVariance (List.replicate n c) = 0 := by
  simp [sampleVariance, listMean_replicate n c hn]

theorem sampleVariance_nonneg (l : List ℚ) (h : 2 ≤ l.length) :
    0 ≤ sampleVariance l := by
  apply div_nonneg
  · apply List.sum_nonneg
    intro x hx
    rcases List.mem_map.mp hx with ⟨y, _, rfl⟩
    exact sq_nonneg _
  · have : (2 : ℚ) ≤ (l.length : ℚ) := by exact_mod_cast h
    linarith

theorem sampleStd_ne_zero (l : List ℚ) (h2 : 2 ≤ l.length)
    (hv : sampleVariance l ≠ 0) : sampleStd l ≠ 0 := by
  have hpos : (0 : ℚ) < sampleVariance l :=
    lt_of_le_of_ne (sampleVariance_nonneg l h2) (Ne.symm hv)
  have : (0 : ℝ) < Real.sqrt (sampleVariance l) :=
    Real.sqrt_pos.mpr (by exact_mod_cast hpos)
  exact ne_of_gt this

theorem calculate_statistics_replicate (n : ℕ) (c : ℚ) (hn : MIN_DATA_POINTS ≤ n) :
    calculate_statistics (List.replicate n c) = some (c, (1e-10 : ℝ)) := by
  have hn0 : 0 < n := lt_of_lt_of_le (by norm_num [MIN_DATA_POINTS]) hn
  have hstd : sampleStd (List.replicate n c) = 0 := by
    rw [sampleStd, sampleVariance_replicate n c hn0]
    simp
  unfold calculate_statistics
  rw [if_neg (by simp only [List.length_replicate]; exact not_lt.mpr hn)]
  simp [hstd, listMean_replicate n c hn0]

theorem calculate_statistics_of_var_ne (l : List ℚ) (hl : MIN_DATA_POINTS ≤ l.length)
    (hv : sampleVariance l ≠ 0) :
    calculate_statistics l = some (listMean l, sampleStd l) := by
  have h2 : 2 ≤ l.length := le_trans (by norm_num [MIN_DATA_POINTS]) hl
  have hs : sampleStd l ≠ 0 := sampleStd_ne_zero l h2 hv
  unfold calculate_statistics
  rw [if_neg (not_lt.mpr hl)]
  simp [hs]

theorem add_data_point_cap (d : AnomalyDetector) (v s ts : ℚ) :
    (d.add_data_point v s ts).timestamp_data.length ≤ (d.add_data_point v s ts).maxlen ∧
    (d.add_data_point v s ts).volume_data.length ≤ (d.add_data_point v s ts).maxlen ∧
    (d.add_data_point v s ts).sentiment_data.length ≤ (d.add_data_point v s ts).maxlen := by
  refine ⟨?_, ?_, ?_⟩ <;>
    simp only [AnomalyDetector.add_data_point, AnomalyDetector.clean_old_data,
      AnomalyDetector.maxlen] <;>
    exact dequeAppend_length_le _ _ _

theorem applyOp_cap (d : AnomalyDetector) (op : Op)
    (h : d.timestamp_data.length ≤ d.maxlen ∧ d.volume_data.length ≤ d.maxlen ∧
      d.sentiment_data.length ≤ d.maxlen) :
    (applyOp d op).timestamp_data.length ≤ (applyOp d op).maxlen ∧
    (applyOp d op).volume_data.length ≤ (applyOp d op).maxlen ∧
    (applyOp d op).sentiment_data.length ≤ (applyOp d op).maxlen := by
  cases op with
  | add_data_point v s ts => exact add_data_point_cap d v s ts
  | detect_anomalies v s ts => exact add_data_point_cap d v s ts
  | detect_volume v ts => exact h
  | detect_sentiment s ts => exact h
  | reset => simp [applyOp, AnomalyDetector.reset, AnomalyDetector.maxlen]

/-- C2: along any sequence of calls starting from a freshly constructed
detector, none of the three window deques ever holds more than
`window_size_hours * 4` entries (`samples_per_hour = 4`); for the default
24-hour window this cap is 96. -/
theorem claim_C2 (w0 : Option ℤ) (t0 : Option ℚ) (ops : List Op) :
    (runOps (AnomalyDetector.init w0 t0) ops).timestamp_data.length
        ≤ (AnomalyDetector.init w0 t0).maxlen ∧
    (runOps (AnomalyDetector.init w0 t0) ops).volume_data.length
        ≤ (AnomalyDetector.init w0 t0).maxlen ∧
    (runOps (AnomalyDetector.init w0 t0) ops).sentiment_data.length
        ≤ (AnomalyDetector.init w0 t0).maxlen ∧
    (runOps (AnomalyDetector.init none none) ops).timestamp_data.length ≤ 96 := by
  have key : ∀ a0 : Option ℤ, ∀ b0 : Option ℚ,
      (runOps (AnomalyDetector.init a0 b0) ops).timestamp_data.length
          ≤ (runOps (AnomalyDetector.init a0 b0) ops).maxlen ∧
      (runOps (AnomalyDetector.init a0 b0) ops).volume_data.length
          ≤ (runOps (AnomalyDetector.init a0 b0) ops).maxlen ∧
      (runOps (AnomalyDetector.init a0 b0) ops).sentiment_data.length
          ≤ (runOps (AnomalyDetector.init a0 b0) ops).maxlen := by
    intro a0 b0
    exact runOps_inv _ applyOp_cap ops _ ⟨Nat.zero_le _, Nat.zero_le _, Nat.zero_le _⟩
  have hmax : ∀ a0 : Option ℤ, ∀ b0 : Option ℚ,
      (runOps (AnomalyDetector.init a0 b0) ops).maxlen
        = (AnomalyDetector.init a0 b0).maxlen := by
    intro a0 b0
    unfold AnomalyDetector.maxlen
    rw [(runOps_window _ _).1]
  refine ⟨?_, ?_, ?_, ?_⟩
  · simpa [hmax w0 t0] using (key w0 t0).1
  · simpa [hmax w0 t0] using (key w0 t0).2.1
  · simpa [hmax w0 t0] using (key w0 t0).2.2
  · have h96 : (AnomalyDetector.init none none).maxlen = 96 := by decide
    simpa [hmax none none, h96] using (key none none).1

theorem add_data_point_colen (d : AnomalyDetector) (v s ts : ℚ)
    (h1 : d.volume_data.length = d.timestamp_data.length)
    (h2 : d.sentiment_data.length = d.timestamp_data.length) :
    (d.add_data_point v s ts).volume_data.length =
      (d.add_data_point v s ts).timestamp_data.length ∧
    (d.add_data_point v s ts).sentiment_data.length =
      (d.add_data_point v s ts).timestamp_data.length := by
  have hc := cleanLoop_lengths (ts - (d.window_size_hours : ℚ))
    d.timestamp_data d.volume_data d.sentiment_data h1 h2
  simp only [AnomalyDetector.add_data_point, AnomalyDetector.clean_old_data,
    dequeAppend_length]
  omega

theorem applyOp_colen (d : AnomalyDetector) (op : Op)
    (h : d.volume_data.length = d.timestamp_data.length ∧
      d.sentiment_data.length = d.timestamp_data.length) :
    (applyOp d op).volume_data.length = (applyOp d op).timestamp_data.length ∧
    (applyOp d op).sentiment_data.length = (applyOp d op).timestamp_data.length := by
  cases op with
  | add_data_point v s ts => exact add_data_point_colen d v s ts h.1 h.2
  | detect_anomalies v s ts => exact add_data_point_colen d v s ts h.1 h.2
  | detect_volume v ts => exact h
  | detect_sentiment s ts => exact h
  | reset => simp [applyOp, AnomalyDetector.reset]

/-- C9: after any sequence of calls on a freshly constructed detector, the
timestamp, volume and sentiment deques all have the same length: appends grow
all three together and time-based eviction pops the head of all three
together, so the two metric series stay co-indexed on one timeline. -/
theorem claim_C9 (w0 : Option ℤ) (t0 : Option ℚ) (ops : List Op) :
    (runOps (AnomalyDetector.init w0 t0) ops).volume_data.length
        = (runOps (AnomalyDetector.init w0 t0) ops).timestamp_data.length ∧
    (runOps (AnomalyDetector.init w0 t0) ops).sentiment_data.length
        = (runOps (AnomalyDetector.init w0 t0) ops).timestamp_data.length :=
  runOps_inv _ applyOp_colen ops _ ⟨rfl, rfl⟩

/-- C4: with fewer than `MIN_DATA_POINTS` (10) buffered values for a metric,
the corresponding detection method returns, for every probed value and
timestamp, the safe result with `is_anomaly = false`, `severity_score = 0`,
zeroed baseline fields and `z_score = 0`; being a total Lean function, it
raises no error. -/
theorem claim_C4 (d : AnomalyDetector) (v s ts : ℚ)
    (hv : d.volume_data.length < MIN_DATA_POINTS)
    (hs : d.sentiment_data.length < MIN_DATA_POINTS) :
    d.detect_volume_anomaly v ts = safeResult "volume" v ts ∧
    d.detect_sentiment_anomaly s ts = safeResult "sentiment" s ts := by
  constructor
  · simp [AnomalyDetector.detect_volume_anomaly, hv]
  · simp [AnomalyDetector.detect_sentiment_anomaly, hs]

/-- Witness for C4 at a concrete input: the freshly constructed detector has
an empty window, so both detection methods return the safe result. -/
theorem claim_C4_witness :
    (AnomalyDetector.init none none).volume_data.length < MIN_DATA_POINTS ∧
    (AnomalyDetector.init none none).sentiment_data.length < MIN_DATA_POINTS ∧
    ((AnomalyDetector.init none none).detect_volume_anomaly 7 3
        = safeResult "volume" 7 3 ∧
      (AnomalyDetector.init none none).detect_sentiment_anomaly 5 3
        = safeResult "sentiment" 5 3) :=
  ⟨by decide, by decide, claim_C4 _ 7 5 3 (by decide) (by decide)⟩

/-- C8: the public detection methods never propagate an internal failure to
the caller: a failure of the statistics computation (modelled by
`calculate_statistics` returning `none`, standing for the raised exception
caught by the `except` handler) is converted into the safe result with
`is_anomaly = false`, `severity_score = 0` and zeroed baseline fields. -/
theorem claim_C8 (d : AnomalyDetector) (v s ts : ℚ)
    (h1 : calculate_statistics d.volume_data = none)
    (h2 : calculate_statistics d.sentiment_data = none) :
    d.detect_volume_anomaly v ts = safeResult "volume" v ts ∧
    d.detect_sentiment_anomaly s ts = safeResult "sentiment" s ts := by
  constructor
  · by_cases h : d.volume_data.length < MIN_DATA_POINTS
    · simp [AnomalyDetector.detect_volume_anomaly, h]
    · simp [AnomalyDetector.detect_volume_anomaly, h, h1]
  · by_cases h : d.sentiment_data.length < MIN_DATA_POINTS
    · simp [AnomalyDetector.detect_sentiment_anomaly, h]
    · simp [AnomalyDetector.detect_sentiment_anomaly, h, h2]

/-- Witness for C8 at a concrete input: on the empty window the statistics
computation fails (`none`), and both detection methods return the safe
result. -/
theorem claim_C8_witness :
    calculate_statistics (AnomalyDetector.init none none).volume_data = none ∧
    calculate_statistics (AnomalyDetector.init none none).sentiment_data = none ∧
    ((AnomalyDetector.init none none).detect_volume_anomaly 1 0
        = safeResult "volume" 1 0 ∧
      (AnomalyDetector.init none none).detect_sentiment_anomaly 2 0
        = safeResult "sentiment" 2 0) :=
  ⟨by rfl, by rfl, claim_C8 _ 1 2 0 (by rfl) (by rfl)⟩

theorem tryInit_some (w0 : Option ℤ) (t0 : Option ℚ) (d : AnomalyDetector)
    (h : AnomalyDetector.tryInit w0 t0 = some d) :
    d = AnomalyDetector.init w0 t0 := by
  unfold AnomalyDetector.tryInit at h
  by_cases hc : (AnomalyDetector.init w0 t0).window_size_hours * 4 < 0
  · simp [hc] at h
  · simp [hc] at h
    exact h.symm

/-- C10 counterexample: the nonzero explicit window size −1 is not "kept as
given": it survives the falsy-`or`, but `deque(maxlen=-1*4)` raises
`ValueError`, so construction fails (`tryInit` returns `none`). -/
theorem claim_C10_counterexample :
    (-1 : ℤ) ≠ 0 ∧ AnomalyDetector.tryInit (some (-1)) none = none := by
  refine ⟨by decide, ?_⟩
  have h : (AnomalyDetector.init (some (-1)) none).window_size_hours = -1 := by
    norm_num [AnomalyDetector.init]
  unfold AnomalyDetector.tryInit
  rw [if_pos (by rw [h]; norm_num)]

/-- C10 amended: the constructor defaults through falsy-`or`, so passing `0`
for `window_size_hours` yields the default 24 and passing `0.0` for
`z_threshold` yields the default 2.5 — a zero window size or zero threshold
cannot be configured. Any nonzero explicitly passed `z_threshold` and any
positive explicitly passed window size are kept as given in the successfully
constructed detector; a negative window size instead makes the deque
constructor raise `ValueError`, so construction fails. Every detector that
does construct has a nonzero window size and a nonzero threshold. -/
theorem claim_C10_amended (w : ℤ) (t : ℚ) (w0 w1 : Option ℤ) (t0 t1 : Option ℚ)
    (dz dt dw dv dg : AnomalyDetector)
    (hw : 0 < w) (ht : t ≠ 0)
    (hz : AnomalyDetector.tryInit (some 0) t0 = some dz)
    (hth : AnomalyDetector.tryInit w0 (some 0) = some dt)
    (hwp : AnomalyDetector.tryInit (some w) t0 = some dw)
    (hv : AnomalyDetector.tryInit w0 (some t) = some dv)
    (hg : AnomalyDetector.tryInit w1 t1 = some dg) :
    dz.window_size_hours = 24 ∧
    dt.z_threshold = 2.5 ∧
    dw.window_size_hours = w ∧
    dv.z_threshold = t ∧
    AnomalyDetector.tryInit (some (-w)) t0 = none ∧
    dg.window_size_hours ≠ 0 ∧
    dg.z_threshold ≠ 0 := by
  have hdz := tryInit_some _ _ _ hz
  have hdt := tryInit_some _ _ _ hth
  have hdw := tryInit_some _ _ _ hwp
  have hdv := tryInit_some _ _ _ hv
  have hdg := tryInit_some _ _ _ hg
  subst hdz hdt hdw hdv hdg
  refine ⟨?_, ?_, ?_, ?_, ?_, ?_, ?_⟩
  · simp [AnomalyDetector.init, DEFAULT_WINDOW_SIZE_HOURS]
  · simp [AnomalyDetector.init, DEFAULT_Z_THRESHOLD]
  · have hw' : w ≠ 0 := by omega
    simp [AnomalyDetector.init, hw']
  · simp [AnomalyDetector.init, ht]
  · have hw' : -w ≠ 0 := by omega
    have hne : (AnomalyDetector.init (some (-w)) t0).window_size_hours = -w := by
      simp [AnomalyDetector.init, hw']
    unfold AnomalyDetector.tryInit
    rw [if_pos (by rw [hne]; omega)]
  · cases w1 with
    | none => simp [AnomalyDetector.init, DEFAULT_WINDOW_SIZE_HOURS]
    | some w' =>
      by_cases h : w' = 0 <;>
        simp [AnomalyDetector.init, DEFAULT_WINDOW_SIZE_HOURS, h]
  · cases t1 with
    | none => norm_num [AnomalyDetector.init, DEFAULT_Z_THRESHOLD]
    | some t' =>
      by_cases h : t' = 0 <;>
        norm_num [AnomalyDetector.init, DEFAULT_Z_THRESHOLD, h]

/-- Witness for C10 (amended) at concrete inputs: constructions with zero,
default and positive parameters succeed, the nonzero explicit values 5 and 1
are kept, zeros fall back to the defaults, and −5 fails to construct. -/
theorem claim_C10_witness :
    (0 : ℤ) < 5 ∧ (1 : ℚ) ≠ 0 ∧
    AnomalyDetector.tryInit (some 0) none
      = some (AnomalyDetector.init (some 0) none) ∧
    AnomalyDetector.tryInit none (some 0)
      = some (AnomalyDetector.init none (some 0)) ∧
    AnomalyDetector.tryInit (some 5) none
      = some (AnomalyDetector.init (some 5) none) ∧
    AnomalyDetector.tryInit none (some 1)
      = some (AnomalyDetector.init none (some 1)) ∧
    AnomalyDetector.tryInit none none
      = some (AnomalyDetector.init none none) ∧
    ((AnomalyDetector.init (some 0) none).window_size_hours = 24 ∧
      (AnomalyDetector.init none (some 0)).z_threshold = 2.5 ∧
      (AnomalyDetector.init (some 5) none).window_size_hours = 5 ∧
      (AnomalyDetector.init none (some 1)).z_threshold = 1 ∧
      AnomalyDetector.tryInit (some (-5)) none = none ∧
      (AnomalyDetector.init none none).window_size_hours ≠ 0 ∧
      (AnomalyDetector.init none none).z_threshold ≠ 0) := by
  have h1 : AnomalyDetector.tryInit (some 0) none
      = some (AnomalyDetector.init (some 0) none) := by
    norm_num [AnomalyDetector.tryInit, AnomalyDetector.init,
      DEFAULT_WINDOW_SIZE_HOURS]
  have h2 : AnomalyDetector.tryInit none (some 0)
      = some (AnomalyDetector.init none (some 0)) := by
    norm_num [AnomalyDetector.tryInit, AnomalyDetector.init,
      DEFAULT_WINDOW_SIZE_HOURS]
  have h3 : AnomalyDetector.tryInit (some 5) none
      = some (AnomalyDetector.init (some 5) none) := by
    norm_num [AnomalyDetector.tryInit, AnomalyDetector.init]
  have h4 : AnomalyDetector.tryInit none (some 1)
      = some (AnomalyDetector.init none (some 1)) := by
    norm_num [AnomalyDetector.tryInit, AnomalyDetector.init,
      DEFAULT_WINDOW_SIZE_HOURS]
  have h5 : AnomalyDetector.tryInit none none
      = some (AnomalyDetector.init none none) := by
    norm_num [AnomalyDetector.tryInit, AnomalyDetector.init,
      DEFAULT_WINDOW_SIZE_HOURS]
  exact ⟨by decide, by decide, h1, h2, h3, h4, h5,
    claim_C10_amended 5 1 none none none none _ _ _ _ _
      (by decide) (by decide) h1 h2 h3 h4 h5⟩

/-- Detector state with an out-of-order timestamp window `[10, 1]`, reached by
two `add_data_point` calls whose timestamps go backwards. -/
def outOfOrderDetector : AnomalyDetector :=
  runOps (AnomalyDetector.init none none)
    [Op.add_data_point 1 0 10, Op.add_data_point 1 0 1]

/-- C3 counterexample: inserting at hour 30 into the out-of-order window
`[10, 1]` stops the head-eviction loop at the fresh head 10, so the stale
sample at hour 1 < 30 − 24 is retained, violating the claim for windows whose
timestamps are not in chronological order. -/
theorem claim_C3_counterexample :
    (1 : ℚ) ∈ (outOfOrderDetector.add_data_point 1 0 30).timestamp_data ∧
    (1 : ℚ) < 30 - (outOfOrderDetector.window_size_hours : ℚ) := by
  have hts : (outOfOrderDetector.add_data_point 1 0 30).timestamp_data
      = [10, 1, 30] := by
    norm_num [outOfOrderDetector, runOps, applyOp, AnomalyDetector.add_data_point,
      AnomalyDetector.clean_old_data, AnomalyDetector.init, AnomalyDetector.maxlen,
      DEFAULT_WINDOW_SIZE_HOURS, cleanLoop, dequeAppend]
  have hw : outOfOrderDetector.window_size_hours = 24 := by
    norm_num [outOfOrderDetector, runOps, applyOp, AnomalyDetector.add_data_point,
      AnomalyDetector.clean_old_data, AnomalyDetector.init,
      DEFAULT_WINDOW_SIZE_HOURS]
  rw [hts, hw]
  norm_num

/-- C3 amended: when the prior window timestamps are non-decreasing (as they
are whenever samples were inserted in chronological order) and the window
duration is nonnegative, every timestamp retained after inserting a sample at
time `T` (by `add_data_point` or by `detect_anomalies`) is at least
`T − window_size_hours`; for out-of-order prior contents the loop only evicts
a maximal stale prefix. -/
theorem claim_C3_amended (d : AnomalyDetector) (v s T x : ℚ)
    (hsort : d.timestamp_data.Sorted (· ≤ ·))
    (hw : 0 ≤ d.window_size_hours)
    (hx : x ∈ (d.add_data_point v s T).timestamp_data ∨
      x ∈ (d.detect_anomalies v s T).1.timestamp_data) :
    T - (d.window_size_hours : ℚ) ≤ x := by
  have hx' : x ∈ (d.add_data_point v s T).timestamp_data := by
    rcases hx with h | h
    · exact h
    · simpa [detect_anomalies_fst] using h
  simp only [AnomalyDetector.add_data_point, AnomalyDetector.clean_old_data] at hx'
  rcases mem_dequeAppend hx' with h | rfl
  · exact cleanLoop_sorted_ge (T - (d.window_size_hours : ℚ))
      d.timestamp_data d.volume_data d.sentiment_data hsort x h
  · have hwQ : (0 : ℚ) ≤ (d.window_size_hours : ℚ) := by exact_mod_cast hw
    linarith

/-- Witness for C3 (amended) at a concrete input: inserting at hour 0 into a
fresh (empty, hence sorted) default detector retains only timestamps within
the 24-hour window. -/
theorem claim_C3_witness :
    (AnomalyDetector.init none none).timestamp_data.Sorted (· ≤ ·) ∧
    0 ≤ (AnomalyDetector.init none none).window_size_hours ∧
    ((0 : ℚ) ∈ ((AnomalyDetector.init none none).add_data_point 1 0 0).timestamp_data ∨
      (0 : ℚ) ∈ ((AnomalyDetector.init none none).detect_anomalies 1 0 0).1.timestamp_data) ∧
    (0 : ℚ) - ((AnomalyDetector.init none none).window_size_hours : ℚ) ≤ 0 :=
  ⟨List.sorted_nil, by decide, Or.inl (by decide),
    claim_C3_amended _ 1 0 0 0 List.sorted_nil (by decide) (Or.inl (by decide))⟩

/-- C5: for `n ≥ 10` identical buffered values the statistics computation
substitutes the epsilon `1e-10` for the zero sample standard deviation, so the
returned std is a small positive real, and the z-score of any probe value
against that baseline is the well-defined real `(v − c) * 1e10` — finite,
since the divisor is the nonzero epsilon (ℝ has no NaN or infinity). -/
theorem claim_C5 (n : ℕ) (c v : ℚ) (hn : MIN_DATA_POINTS ≤ n) :
    calculate_statistics (List.replicate n c) = some (c, (1e-10 : ℝ)) ∧
    (0 : ℝ) < 1e-10 ∧
    calculate_z_score v c (1e-10 : ℝ) = ((v : ℝ) - (c : ℝ)) * 1e10 := by
  refine ⟨calculate_statistics_replicate n c hn, by norm_num, ?_⟩
  rw [calculate_z_score, div_eq_mul_inv]
  norm_num

/-- Witness for C5 at a concrete input: ten copies of 1 and probe value 2. -/
theorem claim_C5_witness :
    MIN_DATA_POINTS ≤ 10 ∧
    (calculate_statistics (List.replicate 10 (1 : ℚ)) = some (1, (1e-10 : ℝ)) ∧
      (0 : ℝ) < 1e-10 ∧
      calculate_z_score 2 1 (1e-10 : ℝ) = (((2 : ℚ) : ℝ) - ((1 : ℚ) : ℝ)) * 1e10) :=
  ⟨by decide, claim_C5 10 1 2 (by decide)⟩

theorem severity_nonneg (t : ℚ) (ht : 0 < t) (z : ℝ) :
    0 ≤ calculate_severity_score t z := by
  have htR : (0 : ℝ) < (t : ℝ) := by exact_mod_cast ht
  by_cases h1 : |z| ≤ (t : ℝ)
  · simp [calculate_severity_score, h1]
  · by_cases h2 : |z| ≤ (t : ℝ) * 2
    · simp only [calculate_severity_score, if_neg h1, if_pos h2]
      apply div_nonneg _ htR.le
      linarith [not_le.mp h1]
    · simp [calculate_severity_score, h1, h2]

theorem severity_le_one (t : ℚ) (ht : 0 < t) (z : ℝ) :
    calculate_severity_score t z ≤ 1 := by
  have htR : (0 : ℝ) < (t : ℝ) := by exact_mod_cast ht
  by_cases h1 : |z| ≤ (t : ℝ)
  · simp [calculate_severity_score, h1]
  · by_cases h2 : |z| ≤ (t : ℝ) * 2
    · simp only [calculate_severity_score, if_neg h1, if_pos h2]
      rw [div_le_one htR]
      linarith
    · simp [calculate_severity_score, h1, h2]

theorem severity_mono (t : ℚ) (ht : 0 < t) (z1 z2 : ℝ) (h : |z1| ≤ |z2|) :
    calculate_severity_score t z1 ≤ calculate_severity_score t z2 := by
  have htR : (0 : ℝ) < (t : ℝ) := by exact_mod_cast ht
  by_cases h1 : |z1| ≤ (t : ℝ)
  · calc calculate_severity_score t z1 = 0 := by simp [calculate_severity_score, h1]
      _ ≤ calculate_severity_score t z2 := severity_nonneg t ht z2
  · have h2t : ¬ |z2| ≤ (t : ℝ) := fun hc => h1 (le_trans h hc)
    by_cases h2 : |z2| ≤ (t : ℝ) * 2
    · have h1b : |z1| ≤ (t : ℝ) * 2 := le_trans h h2
      simp only [calculate_severity_score, if_neg h1, if_pos h1b, if_neg h2t, if_pos h2]
      exact (div_le_div_iff_of_pos_right htR).mpr (by linarith)
    · have hone : calculate_severity_score t z2 = 1 := by
        simp [calculate_severity_score, h2t, h2]
      rw [hone]
      exact severity_le_one t ht z1

/-- C6: for every positive threshold `t` the severity function is 0 on
`|z| ≤ t` (in particular at `z = t`), the linear ramp `(|z| − t)/t` on
`t < |z| ≤ 2t` (in particular 1 at `z = 2t`), capped at 1 for `|z| > 2t`,
non-decreasing in `|z|`, symmetric in the sign of `z`, and always in `[0,1]`. -/
theorem claim_C6 (t : ℚ) (z z1 z2 : ℝ) (ht : 0 < t) (h12 : |z1| ≤ |z2|) :
    (|z| ≤ (t : ℝ) → calculate_severity_score t z = 0) ∧
    calculate_severity_score t ((t : ℝ)) = 0 ∧
    ((t : ℝ) < |z| → |z| ≤ 2 * (t : ℝ) →
      calculate_severity_score t z = (|z| - (t : ℝ)) / (t : ℝ)) ∧
    calculate_severity_score t (2 * (t : ℝ)) = 1 ∧
    (2 * (t : ℝ) < |z| → calculate_severity_score t z = 1) ∧
    calculate_severity_score t z1 ≤ calculate_severity_score t z2 ∧
    calculate_severity_score t (-z) = calculate_severity_score t z ∧
    0 ≤ calculate_severity_score t z ∧ calculate_severity_score t z ≤ 1 := by
  have htR : (0 : ℝ) < (t : ℝ) := by exact_mod_cast ht
  refine ⟨?_, ?_, ?_, ?_, ?_, severity_mono t ht z1 z2 h12, ?_,
    severity_nonneg t ht z, severity_le_one t ht z⟩
  · intro h
    simp [calculate_severity_score, h]
  · simp [calculate_severity_score, abs_of_pos htR]
  · intro hlo hhi
    simp only [calculate_severity_score, if_neg (not_le.mpr hlo),
      if_pos (by linarith : |z| ≤ (t : ℝ) * 2)]
  · have hpos : (0 : ℝ) < 2 * (t : ℝ) := by linarith
    have h1 : ¬ |2 * (t : ℝ)| ≤ (t : ℝ) := by
      rw [abs_of_pos hpos]; linarith
    have h2 : |2 * (t : ℝ)| ≤ (t : ℝ) * 2 := by
      rw [abs_of_pos hpos]; linarith
    simp only [calculate_severity_score, if_neg h1, if_pos h2]
    rw [abs_of_pos hpos]
    field_simp
    ring
  · intro h
    have h1 : ¬ |z| ≤ (t : ℝ) := by push_neg; linarith
    have h2 : ¬ |z| ≤ (t : ℝ) * 2 := by push_neg; linarith
    simp [calculate_severity_score, h1, h2]
  · simp [calculate_severity_score, abs_neg]

/-- Witness for C6 at concrete inputs: threshold 5/2 with probes 4, 0 and 3. -/
theorem claim_C6_witness :
    (0 : ℚ) < 5/2 ∧ |(0 : ℝ)| ≤ |(3 : ℝ)| ∧
    ((|(4 : ℝ)| ≤ ((5/2 : ℚ) : ℝ) → calculate_severity_score (5/2) (4 : ℝ) = 0) ∧
      calculate_severity_score (5/2) (((5/2 : ℚ) : ℝ)) = 0 ∧
      (((5/2 : ℚ) : ℝ) < |(4 : ℝ)| → |(4 : ℝ)| ≤ 2 * ((5/2 : ℚ) : ℝ) →
        calculate_severity_score (5/2) (4 : ℝ)
          = (|(4 : ℝ)| - ((5/2 : ℚ) : ℝ)) / ((5/2 : ℚ) : ℝ)) ∧
      calculate_severity_score (5/2) (2 * ((5/2 : ℚ) : ℝ)) = 1 ∧
      (2 * ((5/2 : ℚ) : ℝ) < |(4 : ℝ)| → calculate_severity_score (5/2) (4 : ℝ) = 1) ∧
      calculate_severity_score (5/2) (0 : ℝ) ≤ calculate_severity_score (5/2) (3 : ℝ) ∧
      calculate_severity_score (5/2) (-(4 : ℝ)) = calculate_severity_score (5/2) (4 : ℝ) ∧
      0 ≤ calculate_severity_score (5/2) (4 : ℝ) ∧
        calculate_severity_score (5/2) (4 : ℝ) ≤ 1) :=
  ⟨by norm_num, by simp,
    claim_C6 (5/2) 4 0 3 (by norm_num) (by simp)⟩

/-- Detector holding a single sample taken at hour 0. -/
def staleDetector : AnomalyDetector :=
  (AnomalyDetector.init none none).add_data_point 1 0 0

/-- C7 counterexample: calling `detect_anomalies` at hour 100 on a window
holding one sample from hour 0 first evicts that stale sample and then
appends, so the window count stays 1 instead of increasing to 2. -/
theorem claim_C7_counterexample :
    staleDetector.timestamp_data.length = 1 ∧
    (staleDetector.detect_anomalies 2 0 100).1.timestamp_data.length = 1 ∧
    (staleDetector.detect_anomalies 2 0 100).1.timestamp_data.length
      ≠ staleDetector.timestamp_data.length + 1 := by
  have h1 : staleDetector.timestamp_data = [0] := by
    norm_num [staleDetector, AnomalyDetector.add_data_point,
      AnomalyDetector.clean_old_data, AnomalyDetector.init, AnomalyDetector.maxlen,
      DEFAULT_WINDOW_SIZE_HOURS, cleanLoop, dequeAppend]
  have h2 : (staleDetector.detect_anomalies 2 0 100).1.timestamp_data = [100] := by
    rw [detect_anomalies_fst]
    norm_num [staleDetector, AnomalyDetector.add_data_point,
      AnomalyDetector.clean_old_data, AnomalyDetector.init, AnomalyDetector.maxlen,
      DEFAULT_WINDOW_SIZE_HOURS, cleanLoop, dequeAppend]
  rw [h1, h2]
  norm_num

theorem detect_volume_metric (d : AnomalyDetector) (v ts : ℚ) :
    (d.detect_volume_anomaly v ts).metric_name = "volume" := by
  by_cases h : d.volume_data.length < MIN_DATA_POINTS
  · simp [AnomalyDetector.detect_volume_anomaly, h, safeResult]
  · rcases hc : calculate_statistics d.volume_data with _ | ⟨mean, std⟩ <;>
      simp [AnomalyDetector.detect_volume_anomaly, h, hc, safeResult]

theorem detect_sentiment_metric (d : AnomalyDetector) (s ts : ℚ) :
    (d.detect_sentiment_anomaly s ts).metric_name = "sentiment" := by
  by_cases h : d.sentiment_data.length < MIN_DATA_POINTS
  · simp [AnomalyDetector.detect_sentiment_anomaly, h, safeResult]
  · rcases hc : calculate_statistics d.sentiment_data with _ | ⟨mean, std⟩ <;>
      simp [AnomalyDetector.detect_sentiment_anomaly, h, hc, safeResult]

/-- C7 amended: `detect_anomalies` appends the sample before evaluating, so
the returned pair of results (volume first, sentiment second) is computed
against the post-insertion window, which contains the candidate values; the
window count increases by exactly one provided no entry is evicted, i.e. when
every buffered timestamp is within the window of the new timestamp and the
window is strictly below its capacity cap. -/
theorem claim_C7_amended (d : AnomalyDetector) (v s ts : ℚ)
    (hin : ∀ x ∈ d.timestamp_data, ts - (d.window_size_hours : ℚ) ≤ x)
    (hcap : d.timestamp_data.length < d.maxlen) :
    (d.detect_anomalies v s ts).2 =
      [(d.add_data_point v s ts).detect_volume_anomaly v ts,
        (d.add_data_point v s ts).detect_sentiment_anomaly s ts] ∧
    (d.detect_anomalies v s ts).2.length = 2 ∧
    (d.detect_anomalies v s ts).2.map AnomalyResult.metric_name
      = ["volume", "sentiment"] ∧
    v ∈ (d.detect_anomalies v s ts).1.volume_data ∧
    s ∈ (d.detect_anomalies v s ts).1.sentiment_data ∧
    (d.detect_anomalies v s ts).1.timestamp_data.length
      = d.timestamp_data.length + 1 := by
  have hclean : cleanLoop (ts - (d.window_size_hours : ℚ))
      d.timestamp_data d.volume_data d.sentiment_data
      = (d.timestamp_data, d.volume_data, d.sentiment_data) :=
    cleanLoop_of_ge _ _ _ _ hin
  have hm : 1 ≤ d.maxlen := by omega
  have hadd : d.add_data_point v s ts =
      { d with
        timestamp_data := dequeAppend d.maxlen d.timestamp_data ts
        volume_data := dequeAppend d.maxlen d.volume_data v
        sentiment_data := dequeAppend d.maxlen d.sentiment_data s } := by
    simp [AnomalyDetector.add_data_point, AnomalyDetector.clean_old_data, hclean,
      AnomalyDetector.maxlen]
  refine ⟨rfl, rfl, ?_, ?_, ?_, ?_⟩
  · simp [AnomalyDetector.detect_anomalies, detect_volume_metric,
      detect_sentiment_metric]
  · rw [detect_anomalies_fst, hadd]
    exact self_mem_dequeAppend _ _ _ hm
  · rw [detect_anomalies_fst, hadd]
    exact self_mem_dequeAppend _ _ _ hm
  · rw [detect_anomalies_fst, hadd]
    show (dequeAppend d.maxlen d.timestamp_data ts).length
      = d.timestamp_data.length + 1
    rw [dequeAppend_of_le _ _ _ (by omega)]
    simp

/-- Witness for C7 (amended) at a concrete input: one in-window sample at
hour 0, new sample at hour 1, default 96-entry cap not reached. -/
theorem claim_C7_witness :
    (∀ x ∈ staleDetector.timestamp_data,
      (1 : ℚ) - (staleDetector.window_size_hours : ℚ) ≤ x) ∧
    staleDetector.timestamp_data.length < staleDetector.maxlen ∧
    ((staleDetector.detect_anomalies 2 (1/2) 1).2 =
        [(staleDetector.add_data_point 2 (1/2) 1).detect_volume_anomaly 2 1,
          (staleDetector.add_data_point 2 (1/2) 1).detect_sentiment_anomaly (1/2) 1] ∧
      (staleDetector.detect_anomalies 2 (1/2) 1).2.length = 2 ∧
      (staleDetector.detect_anomalies 2 (1/2) 1).2.map AnomalyResult.metric_name
        = ["volume", "sentiment"] ∧
      (2 : ℚ) ∈ (staleDetector.detect_anomalies 2 (1/2) 1).1.volume_data ∧
      (1/2 : ℚ) ∈ (staleDetector.detect_anomalies 2 (1/2) 1).1.sentiment_data ∧
      (staleDetector.detect_anomalies 2 (1/2) 1).1.timestamp_data.length
        = staleDetector.timestamp_data.length + 1) := by
  have h1 : staleDetector.timestamp_data = [0] := by
    norm_num [staleDetector, AnomalyDetector.add_data_point,
      AnomalyDetector.clean_old_data, AnomalyDetector.init, AnomalyDetector.maxlen,
      DEFAULT_WINDOW_SIZE_HOURS, cleanLoop, dequeAppend]
  have h2 : staleDetector.window_size_hours = 24 := by
    norm_num [staleDetector, AnomalyDetector.add_data_point,
      AnomalyDetector.clean_old_data, AnomalyDetector.init,
      DEFAULT_WINDOW_SIZE_HOURS]
  have hin : ∀ x ∈ staleDetector.timestamp_data,
      (1 : ℚ) - (staleDetector.window_size_hours : ℚ) ≤ x := by
    rw [h1, h2]
    intro x hx
    simp only [List.mem_singleton] at hx
    subst hx
    norm_num
  have hcap : staleDetector.timestamp_data.length < staleDetector.maxlen := by
    rw [h1]
    show 1 < staleDetector.maxlen
    rw [AnomalyDetector.maxlen, h2]
    norm_num
  exact ⟨hin, hcap, claim_C7_amended staleDetector 2 (1/2) 1 hin hcap⟩

theorem detect_volume_success (d : AnomalyDetector) (v ts : ℚ)
    (hl : MIN_DATA_POINTS ≤ d.volume_data.length)
    (hv : sampleVariance d.volume_data ≠ 0) :
    d.detect_volume_anomaly v ts =
      { is_anomaly := decide
          (|calculate_z_score v (listMean d.volume_data) (sampleStd d.volume_data)|
            > (d.z_threshold : ℝ))
        severity_score := calculate_severity_score d.z_threshold
          (calculate_z_score v (listMean d.volume_data) (sampleStd d.volume_data))
        metric_name := "volume"
        current_value := v
        baseline_mean := listMean d.volume_data
        baseline_std := sampleStd d.volume_data
        z_score := calculate_z_score v (listMean d.volume_data) (sampleStd d.volume_data)
        timestamp := ts } := by
  simp only [AnomalyDetector.detect_volume_anomaly, if_neg (not_lt.mpr hl),
    calculate_statistics_of_var_ne d.volume_data hl hv]

theorem detect_sentiment_success (d : AnomalyDetector) (s ts : ℚ)
    (hl : MIN_DATA_POINTS ≤ d.sentiment_data.length)
    (hv : sampleVariance d.sentiment_data ≠ 0) :
    d.detect_sentiment_anomaly s ts =
      { is_anomaly := decide
          (|calculate_z_score s (listMean d.sentiment_data) (sampleStd d.sentiment_data)|
            > (d.z_threshold : ℝ))
        severity_score := calculate_severity_score d.z_threshold
          (calculate_z_score s (listMean d.sentiment_data) (sampleStd d.sentiment_data))
        metric_name := "sentiment"
        current_value := s
        baseline_mean := listMean d.sentiment_data
        baseline_std := sampleStd d.sentiment_data
        z_score := calculate_z_score s (listMean d.sentiment_data) (sampleStd d.sentiment_data)
        timestamp := ts } := by
  simp only [AnomalyDetector.detect_sentiment_anomaly, if_neg (not_lt.mpr hl),
    calculate_statistics_of_var_ne d.sentiment_data hl hv]

/-- Detector whose window holds ten identical volume values 1 (sentiment 0),
all taken at hour 0. -/
def identicalDetector : AnomalyDetector :=
  runOps (AnomalyDetector.init none none)
    (List.replicate 10 (Op.add_data_point 1 0 0))

/-- C1 counterexample: with ten identical buffered values the sample standard
deviation is 0, so the code substitutes the epsilon 1e-10 and returns
z-score (2−1)/1e-10 = 10^10, which differs from (current − mean)/std as the
claim states it (a division by the zero sample standard deviation). -/
theorem claim_C1_counterexample :
    MIN_DATA_POINTS ≤ identicalDetector.volume_data.length ∧
    (identicalDetector.detect_volume_anomaly 2 0).z_score ≠
      (((2 : ℚ) : ℝ) - (listMean identicalDetector.volume_data : ℝ))
        / sampleStd identicalDetector.volume_data := by
  have hvol : identicalDetector.volume_data = List.replicate 10 (1 : ℚ) := by
    norm_num [identicalDetector, runOps, applyOp, AnomalyDetector.add_data_point,
      AnomalyDetector.clean_old_data, AnomalyDetector.init, AnomalyDetector.maxlen,
      DEFAULT_WINDOW_SIZE_HOURS, cleanLoop, dequeAppend, List.replicate]
  have hmean : listMean (List.replicate 10 (1 : ℚ)) = 1 :=
    listMean_replicate 10 1 (by norm_num)
  have hstd : sampleStd (List.replicate 10 (1 : ℚ)) = 0 := by
    rw [sampleStd, sampleVariance_replicate 10 1 (by norm_num)]
    simp
  have hcalc : calculate_statistics (List.replicate 10 (1 : ℚ))
      = some (1, (1e-10 : ℝ)) :=
    calculate_statistics_replicate 10 1 (by norm_num [MIN_DATA_POINTS])
  constructor
  · rw [hvol]
    norm_num [MIN_DATA_POINTS]
  · have hz : (identicalDetector.detect_volume_anomaly 2 0).z_score
        = calculate_z_score 2 1 (1e-10 : ℝ) := by
      simp only [AnomalyDetector.detect_volume_anomaly, hvol, hcalc]
      norm_num [MIN_DATA_POINTS]
    rw [hz, hvol, hmean, hstd, div_zero, calculate_z_score]
    push_cast
    norm_num

/-- C1 amended: for a window with at least `MIN_DATA_POINTS` buffered values
of a metric whose sample variance is nonzero (when all values are identical
the epsilon 1e-10 is substituted for the zero std instead — see C5), the
detection methods return the z-score (current − mean)/std with mean the
arithmetic mean and std the Bessel-corrected sample standard deviation of the
buffered values, report that mean and std as the baseline, and flag an
anomaly exactly when |z| is strictly greater than the threshold. -/
theorem claim_C1_amended (d : AnomalyDetector) (v s ts : ℚ)
    (hvl : MIN_DATA_POINTS ≤ d.volume_data.length)
    (hvv : sampleVariance d.volume_data ≠ 0)
    (hsl : MIN_DATA_POINTS ≤ d.sentiment_data.length)
    (hsv : sampleVariance d.sentiment_data ≠ 0) :
    ((d.detect_volume_anomaly v ts).z_score
        = ((v : ℝ) - (listMean d.volume_data : ℝ)) / sampleStd d.volume_data ∧
      (d.detect_volume_anomaly v ts).baseline_mean = listMean d.volume_data ∧
      (d.detect_volume_anomaly v ts).baseline_std = sampleStd d.volume_data ∧
      ((d.detect_volume_anomaly v ts).is_anomaly = true ↔
        |((v : ℝ) - (listMean d.volume_data : ℝ)) / sampleStd d.volume_data|
          > (d.z_threshold : ℝ))) ∧
    ((d.detect_sentiment_anomaly s ts).z_score
        = ((s : ℝ) - (listMean d.sentiment_data : ℝ)) / sampleStd d.sentiment_data ∧
      (d.detect_sentiment_anomaly s ts).baseline_mean = listMean d.sentiment_data ∧
      (d.detect_sentiment_anomaly s ts).baseline_std = sampleStd d.sentiment_data ∧
      ((d.detect_sentiment_anomaly s ts).is_anomaly = true ↔
        |((s : ℝ) - (listMean d.sentiment_data : ℝ)) / sampleStd d.sentiment_data|
          > (d.z_threshold : ℝ))) := by
  rw [detect_volume_success d v ts hvl hvv, detect_sentiment_success d s ts hsl hsv]
  exact ⟨⟨rfl, rfl, rfl, decide_eq_true_iff⟩, ⟨rfl, rfl, rfl, decide_eq_true_iff⟩⟩

/-- Detector whose window holds the ten distinct values 0..9 for both
metrics, all taken at hour 0. -/
def variedDetector : AnomalyDetector :=
  runOps (AnomalyDetector.init none none)
    [Op.add_data_point 0 0 0, Op.add_data_point 1 1 0, Op.add_data_point 2 2 0,
      Op.add_data_point 3 3 0, Op.add_data_point 4 4 0, Op.add_data_point 5 5 0,
      Op.add_data_point 6 6 0, Op.add_data_point 7 7 0, Op.add_data_point 8 8 0,
      Op.add_data_point 9 9 0]

/-- Witness for C1 (amended) at a concrete input: ten distinct values 0..9
with nonzero sample variance, probed with volume 100 and sentiment 100. -/
theorem claim_C1_witness :
    MIN_DATA_POINTS ≤ variedDetector.volume_data.length ∧
    sampleVariance variedDetector.volume_data ≠ 0 ∧
    MIN_DATA_POINTS ≤ variedDetector.sentiment_data.length ∧
    sampleVariance variedDetector.sentiment_data ≠ 0 ∧
    (((variedDetector.detect_volume_anomaly 100 0).z_score
        = (((100 : ℚ) : ℝ) - (listMean variedDetector.volume_data : ℝ))
            / sampleStd variedDetector.volume_data ∧
      (variedDetector.detect_volume_anomaly 100 0).baseline_mean
        = listMean variedDetector.volume_data ∧
      (variedDetector.detect_volume_anomaly 100 0).baseline_std
        = sampleStd variedDetector.volume_data ∧
      ((variedDetector.detect_volume_anomaly 100 0).is_anomaly = true ↔
        |(((100 : ℚ) : ℝ) - (listMean variedDetector.volume_data : ℝ))
            / sampleStd variedDetector.volume_data|
          > (variedDetector.z_threshold : ℝ))) ∧
    ((variedDetector.detect_sentiment_anomaly 100 0).z_score
        = (((100 : ℚ) : ℝ) - (listMean variedDetector.sentiment_data : ℝ))
            / sampleStd variedDetector.sentiment_data ∧
      (variedDetector.detect_sentiment_anomaly 100 0).baseline_mean
        = listMean variedDetector.sentiment_data ∧
      (variedDetector.detect_sentiment_anomaly 100 0).baseline_std
        = sampleStd variedDetector.sentiment_data ∧
      ((variedDetector.detect_sentiment_anomaly 100 0).is_anomaly = true ↔
        |(((100 : ℚ) : ℝ) - (listMean variedDetector.sentiment_data : ℝ))
            / sampleStd variedDetector.sentiment_data|
          > (variedDetector.z_threshold : ℝ)))) := by
  have hvol : variedDetector.volume_data
      = [0, 1, 2, 3, 4, 5, 6, 7, 8, 9] := by
    norm_num [variedDetector, runOps, applyOp, AnomalyDetector.add_data_point,
      AnomalyDetector.clean_old_data, AnomalyDetector.init, AnomalyDetector.maxlen,
      DEFAULT_WINDOW_SIZE_HOURS, cleanLoop, dequeAppend]
  have hsent : variedDetector.sentiment_data
      = [0, 1, 2, 3, 4, 5, 6, 7, 8, 9] := by
    norm_num [variedDetector, runOps, applyOp, AnomalyDetector.add_data_point,
      AnomalyDetector.clean_old_data, AnomalyDetector.init, AnomalyDetector.maxlen,
      DEFAULT_WINDOW_SIZE_HOURS, cleanLoop, dequeAppend]
  have hvar : sampleVariance ([0, 1, 2, 3, 4, 5, 6, 7, 8, 9] : List ℚ) ≠ 0 := by
    norm_num [sampleVariance, listMean]
  have h1 : MIN_DATA_POINTS ≤ variedDetector.volume_data.length := by
    rw [hvol]; norm_num [MIN_DATA_POINTS]
  have h2 : sampleVariance variedDetector.volume_data ≠ 0 := by rw [hvol]; exact hvar
  have h3 : MIN_DATA_POINTS ≤ variedDetector.sentiment_data.length := by
    rw [hsent]; norm_num [MIN_DATA_POINTS]
  have h4 : sampleVariance variedDetector.sentiment_data ≠ 0 := by
    rw [hsent]; exact hvar
  exact ⟨h1, h2, h3, h4, claim_C1_amended variedDetector 100 100 0 h1 h2 h3 h4⟩

end Lumenpulse
